import Mathlib

/-!
Verification development for the booking web module of laas-reflab
(src/src/liblaas/src/web/booking/mod.rs).

The handlers are embedded as pure functions over an explicit `Store`
(the relational store visible through one transaction) plus fault flags
for the store operations that can fail (`Instance.update`,
`Transaction.commit`, `ProvisionLogEvent::all_for_instance`).  The
process-wide `DISPATCH` once-cell is embedded as an `Option Dispatcher`
in the environment.  Database ids (`FKey<_>`, `Uuid`) are embedded as
`Nat`; timestamps (`DateTime<Utc>`) as `Int`.
-/

namespace Laas

deriving instance DecidableEq for Except

abbrev StatusCode := Nat

def StatusCode.INTERNAL_SERVER_ERROR : StatusCode := 500

/-- `WebError` is an HTTP status code paired with a human-readable message,
matching the `(StatusCode, String)` error tuples the handlers build. -/
abbrev WebError := StatusCode × String

/-- Modelled from the spec: `models::dashboard::StatusSentiment` is not under
src/; the spec describes it as a sentiment classification
(positive/neutral/negative). -/
inductive StatusSentiment where
  | positive
  | neutral
  | negative
  deriving DecidableEq

/-- Modelled from the spec: the `prov_status` payload of a log event
(`models` crate, not under src/) is a status descriptor with a headline
(`event`) and detail text (`details`). -/
structure ProvStatus where
  event : String
  details : String
  deriving DecidableEq

/-- Modelled from the spec: the `Display` impl used by
`log.prov_status.to_string()` lives outside src/; no claim depends on its
exact output. -/
def ProvStatus.displayString (p : ProvStatus) : String :=
  p.event ++ ": " ++ p.details

/-- One provisioning log event row (`models::dashboard::ProvisionLogEvent`):
belongs to one instance, carries a timestamp, a status descriptor and a
sentiment. -/
structure ProvisionLogEvent where
  instance_id : Nat
  time : Int
  prov_status : ProvStatus
  sentiment : StatusSentiment
  deriving DecidableEq

/-- A physical host row: stable name and out-of-band management address. -/
structure Host where
  id : Nat
  server_name : String
  ipmi_fqdn : String
  deriving DecidableEq

/-- Instance-level configuration: the handlers read/write `config.image`
and read `config.hostname`. -/
structure InstanceConfig where
  image : Nat
  hostname : String
  deriving DecidableEq

/-- An instance row: belongs to one aggregate, holds its config, and
optionally references a linked host. -/
structure Instance where
  id : Nat
  aggregate : Nat
  config : InstanceConfig
  linked_host : Option Nat
  deriving DecidableEq

/-- A template row; the status handler copies it wholesale, so its payload
is irrelevant here beyond identity. -/
structure Template where
  id : Nat
  deriving DecidableEq

/-- Reservation-level configuration; copied wholesale by the status
handler (`agg.configuration.clone()`), payload irrelevant beyond identity. -/
structure AggregateConfiguration where
  id : Nat
  deriving DecidableEq

/-- An aggregate (booking) row: configuration plus a template reference. -/
structure Aggregate where
  id : Nat
  configuration : AggregateConfiguration
  template : Nat
  deriving DecidableEq

/-- The rows visible through one transaction. -/
structure Store where
  aggregates : List Aggregate
  instances : List Instance
  hosts : List Host
  templates : List Template
  logs : List ProvisionLogEvent
  deriving DecidableEq

/-- `Instance::get(&mut transaction, id)`: `none` models the failing
lookup (absent row or store error — the handler collapses both). -/
def Instance.get (s : Store) (i : Nat) : Option Instance :=
  s.instances.find? (fun inst => inst.id == i)

/-- `FKey::<Aggregate>::from_id(agg_id).get(&mut transaction)`. -/
def Aggregate.get (s : Store) (a : Nat) : Option Aggregate :=
  s.aggregates.find? (fun agg => agg.id == a)

/-- `FKey::<Host>::get(&mut transaction)` for a linked-host key. -/
def Host.get (s : Store) (h : Nat) : Option Host :=
  s.hosts.find? (fun host => host.id == h)

/-- `agg.template.get(&mut transaction)`. -/
def Template.get (s : Store) (t : Nat) : Option Template :=
  s.templates.find? (fun tmpl => tmpl.id == t)

/-- `ProvisionLogEvent::all_for_instance(&mut transaction, instance.id)`:
the rows for one instance, in storage (insertion) order. -/
def ProvisionLogEvent.all_for_instance (s : Store) (i : Nat) : List ProvisionLogEvent :=
  s.logs.filter (fun l => l.instance_id == i)

/-- `agg.instances(&mut transaction)`: the instances owned by the aggregate. -/
def Aggregate.instances (s : Store) (agg : Aggregate) : List Instance :=
  s.instances.filter (fun i => i.aggregate == agg.id)

/-- `inst.update(&mut transaction)` followed by commit: replace the row
with the same id. -/
def Store.updateInstance (s : Store) (inst : Instance) : Store :=
  { s with instances := s.instances.map (fun old => if old.id == inst.id then inst else old) }

/-- `config::Situation` tags used by the notify actions. -/
inductive Situation where
  | BookingExpiring
  | RequestBookingExtension
  deriving DecidableEq

/-- `workflows::entry::Action`: the requests submitted to the execution
engine by this module. -/
inductive Action where
  | Reimage (host_id : Nat) (inst_id : Nat) (agg_id : Nat)
  | NotifyTask (agg_id : Nat) (situation : Situation) (context : List (String × String))
  deriving DecidableEq

/-- The execution-engine handle behind `DISPATCH`: `send` succeeds iff
`accept` holds of the action (`DispatchError` otherwise). -/
structure Dispatcher where
  accept : Action → Bool

/-- The environment a handler runs in: the store, the (possibly
uninitialized) `DISPATCH` handle, and fault flags for the store
operations that can fail. -/
structure Env where
  store : Store
  dispatch : Option Dispatcher
  updateOk : Bool
  commitOk : Bool
  logsOk : Nat → Bool

/-- The observable result of a handler call: its response, the store
after the call (reflecting exactly the committed mutations), the actions
passed to `DISPATCH.send`, and the `tracing::error!` messages emitted. -/
structure HandlerResult (α : Type) where
  response : Except WebError α
  store : Store
  sent : List Action
  logged : List String

/-- Modelled from the spec: `log_db_client_error` (in `models::dal::web`,
not under src/) maps store/client failures to a 500-class structured
error (spec: `PersistenceError` → 500-class). -/
def dbClientError : WebError :=
  (StatusCode.INTERNAL_SERVER_ERROR, "db client error")

/-- The `reimage_host` handler (POST `/:instance_id/reimage`), embedded
step for step: read the instance row, set `config.image`, update and
commit, then look up `DISPATCH`, then the linked host, then send the
`Reimage` action; a rejected send is only logged, the handler still
returns `Ok(())`. -/
def reimage_host (env : Env) (instance_id : Nat) (image_id : Nat) : HandlerResult Unit :=
  match Instance.get env.store instance_id with
  | none =>
      ⟨.error (StatusCode.INTERNAL_SERVER_ERROR, "Error accessing image from database."),
        env.store, [], []⟩
  | some inst0 =>
      let inst : Instance := { inst0 with config := { inst0.config with image := image_id } }
      if env.updateOk = false then
        ⟨.error (StatusCode.INTERNAL_SERVER_ERROR, "Error updating instance image."),
          env.store, [], []⟩
      else if env.commitOk = false then
        ⟨.error (StatusCode.INTERNAL_SERVER_ERROR, "Error committing instance changes."),
          env.store, [], []⟩
      else
        let committed := env.store.updateInstance inst
        match env.dispatch with
        | none =>
            ⟨.error (StatusCode.INTERNAL_SERVER_ERROR, "Tascii was not found."),
              committed, [], []⟩
        | some d =>
            match inst.linked_host with
            | none =>
                ⟨.error (StatusCode.INTERNAL_SERVER_ERROR,
                    "No linked host was found for instance."),
                  committed, [], []⟩
            | some host_id =>
                let act := Action.Reimage host_id instance_id inst.aggregate
                if d.accept act then
                  ⟨.ok (), committed, [act], []⟩
                else
                  ⟨.ok (), committed, [act], ["Failed to send deploy task with error"]⟩

/-- `AssignedHostInfo` response record: host name plus management address. -/
structure AssignedHostInfo where
  hostname : String
  ipmi_fqdn : String
  deriving DecidableEq

/-- `StatusInfo` response record: two-field status descriptor. -/
structure StatusInfo where
  headline : String
  subline : String
  deriving DecidableEq

/-- `InstanceStatusUpdate` response record.  The source serializes the
timestamp with `to_rfc2822()`; the embedding keeps the timestamp value,
whose order the formatting only re-presents. -/
structure InstanceStatusUpdate where
  status_info : StatusInfo
  sentiment : StatusSentiment
  time : Int
  status : String
  deriving DecidableEq

/-- `InstanceStatus` response record.  The source field `instance` is a
Lean keyword, embedded as `inst`; `assigned_host` is the deprecated
legacy field whose doc comment says to reference `assigned_host_info`
instead. -/
structure InstanceStatus where
  inst : Nat
  logs : List InstanceStatusUpdate
  assigned_host_info : Option AssignedHostInfo
  host_alias : String
  assigned_host : Option String
  deriving DecidableEq

/-- `BookingStatus` response record; the `HashMap` keyed by instance id is
embedded as the association list in loop-iteration order. -/
structure BookingStatus where
  instances : List (Nat × InstanceStatus)
  config : AggregateConfiguration
  template : Template
  deriving DecidableEq

/-- A handler outcome distinguishing a structured error (a `WebError`
response) from a panic (`expect`), which aborts the handler without a
structured response. -/
inductive Outcome (α : Type) where
  | ok : α → Outcome α
  | err : WebError → Outcome α
  | panic : String → Outcome α
  deriving DecidableEq

/-- Insert an event into a list, before the first element whose `time` key
is ≥ the event's (so existing equal-key elements keep their relative
position — stability). -/
def insertByTime (e : ProvisionLogEvent) : List ProvisionLogEvent → List ProvisionLogEvent
  | [] => [e]
  | x :: xs => if e.time ≤ x.time then e :: x :: xs else x :: insertByTime e xs

/-- `logs_for_instance.sort_by_key(|v| v.time)`: Rust's `sort_by_key` is a
stable sort by the key, embedded as stable insertion sort — extensionally
the same function, since a stable sort by a total key is unique. -/
def sort_by_time : List ProvisionLogEvent → List ProvisionLogEvent
  | [] => []
  | e :: es => insertByTime e (sort_by_time es)

/-- The per-instance body of the `booking_status` loop: fetch the
instance's log events (fallible), sort them by `time`, resolve the linked
host when present, and assemble the `InstanceStatus` record.  In the
source, `host_info` is constructed from the resolved host and then
discarded — the tuple built is `(Some(host.server_name), None)`, so
`assigned_host_info` is always `None`; the embedding reproduces this. -/
def instance_status (env : Env) (inst : Instance) : Except WebError InstanceStatus :=
  if env.logsOk inst.id then
    let logs_for_instance :=
      sort_by_time (ProvisionLogEvent.all_for_instance env.store inst.id)
    let inst_hn := inst.config.hostname
    let hostFields : Except WebError (Option String × Option AssignedHostInfo) :=
      match inst.linked_host with
      | some v =>
          match Host.get env.store v with
          | none => .error dbClientError
          | some host =>
              let host_info : AssignedHostInfo :=
                { hostname := host.server_name, ipmi_fqdn := host.ipmi_fqdn }
              .ok (some host.server_name, none)
      | none => .ok (none, none)
    match hostFields with
    | .error e => .error e
    | .ok (assigned_host, assigned_host_info) =>
        .ok
          { inst := inst.id
            logs := logs_for_instance.map (fun log =>
              { sentiment := log.sentiment
                status := log.prov_status.displayString
                status_info :=
                  { headline := log.prov_status.event, subline := log.prov_status.details }
                time := log.time })
            assigned_host_info := assigned_host_info
            host_alias := inst_hn
            assigned_host := assigned_host }
  else
    .error dbClientError

/-- The `for instance in &agg.instances(..)` loop: accumulate the
per-instance records keyed by instance id, failing the whole request on
the first per-instance failure. -/
def collect_statuses (env : Env) : List Instance → Except WebError (List (Nat × InstanceStatus))
  | [] => .ok []
  | inst :: rest =>
      match instance_status env inst with
      | .error e => .error e
      | .ok st =>
          match collect_statuses env rest with
          | .error e => .error e
          | .ok tail => .ok ((inst.id, st) :: tail)

/-- The `booking_status` handler (GET `/:agg_id/status`): look up the
aggregate (500-class structured error if that fails), build every
instance's status, resolve the template with
`.expect("Expected to find template")` — a panic on failure — and commit. -/
def booking_status (env : Env) (agg_id : Nat) : Outcome BookingStatus :=
  match Aggregate.get env.store agg_id with
  | none =>
      .err (StatusCode.INTERNAL_SERVER_ERROR, "failed to look up aggregate by given ID")
  | some agg =>
      match collect_statuses env (Aggregate.instances env.store agg) with
      | .error e => .err e
      | .ok statuses =>
          match Template.get env.store agg.template with
          | none => .panic "Expected to find template"
          | some template =>
              if env.commitOk then
                .ok { instances := statuses, config := agg.configuration, template := template }
              else
                .err dbClientError

/-- `EndBookingResponse` payload: always a structured `{success, details}`. -/
structure EndBookingResponse where
  success : Bool
  details : String
  deriving DecidableEq

/-- Modelled from the spec: `booking::end_booking` lives in the `booking`
crate, not under src/.  Per the spec it performs the terminal transition
for the aggregate and fails with a descriptive (non-empty) error when the
aggregate does not exist. -/
def booking.end_booking (s : Store) (agg_id : Nat) : Except String Store :=
  match Aggregate.get s agg_id with
  | none => .error "no aggregate found for the given id"
  | some _ => .ok { s with aggregates := s.aggregates.filter (fun a => a.id != agg_id) }

/-- The `end_booking` handler (DELETE `/:agg_id/end`): its Rust signature
returns `Json<EndBookingResponse>` with no error channel, so the embedding
is a total function — it always produces a structured payload, never a
transport-level error. -/
def end_booking (s : Store) (agg_id : Nat) : EndBookingResponse × Store :=
  match booking.end_booking s agg_id with
  | .ok s2 =>
      (⟨true, "Successfully ended booking with agg_id " ++ toString agg_id⟩, s2)
  | .error e => (⟨false, e⟩, s)

/-- `ExtensionRequest` body of the request-extension endpoint. -/
structure ExtensionRequest where
  date : String
  reason : String
  deriving DecidableEq

/-- The `notify_aggregate_expiring` handler (POST `/:agg_id/notify/expiring`):
no store work; look up `DISPATCH` (500-class error if uninitialized) and
send a `NotifyTask` action tagged `BookingExpiring`, surfacing a rejected
send as a 500-class error. -/
def notify_aggregate_expiring (env : Env) (agg_id : Nat) (date_string : String) :
    HandlerResult Unit :=
  match env.dispatch with
  | none =>
      ⟨.error (StatusCode.INTERNAL_SERVER_ERROR, "Unable to get dispatcher"),
        env.store, [], []⟩
  | some d =>
      let act := Action.NotifyTask agg_id Situation.BookingExpiring
        [("ending_override", date_string)]
      if d.accept act then
        ⟨.ok (), env.store, [act], []⟩
      else
        ⟨.error (StatusCode.INTERNAL_SERVER_ERROR, "Unable to execute notify task!"),
          env.store, [act], []⟩

/-- The `request_booking_extension` handler (POST `/:agg_id/request-extension`):
no store work; look up `DISPATCH` (500-class error if uninitialized) and
send a `NotifyTask` action tagged `RequestBookingExtension`, surfacing a
rejected send as a 500-class error. -/
def request_booking_extension (env : Env) (agg_id : Nat) (details : ExtensionRequest) :
    HandlerResult Unit :=
  match env.dispatch with
  | none =>
      ⟨.error (StatusCode.INTERNAL_SERVER_ERROR, "Unable to get dispatcher"),
        env.store, [], []⟩
  | some d =>
      let act := Action.NotifyTask agg_id Situation.RequestBookingExtension
        [("extension_date", details.date), ("extension_reason", details.reason)]
      if d.accept act then
        ⟨.ok (), env.store, [act], []⟩
      else
        ⟨.error (StatusCode.INTERNAL_SERVER_ERROR, "Unable to execute notify task!"),
          env.store, [act], []⟩

/-- The spec's `404`-class of HTTP status codes, stated from the spec's
words (`NotFound → 404-class`) for comparison with the codes the handlers
actually return. -/
def is404Class (c : StatusCode) : Bool :=
  400 ≤ c && c < 500

/-! ### Concrete fixtures used to evaluate the handlers -/

def emptyStore : Store := ⟨[], [], [], [], []⟩

def allLogsOk : Nat → Bool := fun _ => true

def noLogsOk : Nat → Bool := fun _ => false

def acceptAll : Dispatcher := ⟨fun _ => true⟩

def rejectAll : Dispatcher := ⟨fun _ => false⟩

def sampleHost : Host := ⟨9, "host1", "host1-ipmi.example.com"⟩

def sampleTemplate : Template := ⟨7⟩

def sampleConfig : AggregateConfiguration := ⟨0⟩

def sampleAgg : Aggregate := ⟨1, sampleConfig, 7⟩

def instLinked : Instance := ⟨5, 1, ⟨10, "node-a"⟩, some 9⟩

def instNoHost : Instance := ⟨5, 1, ⟨10, "node-a"⟩, none⟩

def storeLinked : Store := ⟨[sampleAgg], [instLinked], [sampleHost], [sampleTemplate], []⟩

def storeNoHost : Store := ⟨[sampleAgg], [instNoHost], [sampleHost], [sampleTemplate], []⟩

def envC1 : Env := ⟨storeLinked, some acceptAll, true, true, allLogsOk⟩

def envC2 : Env := ⟨storeNoHost, some acceptAll, true, true, allLogsOk⟩

def envC3 : Env := ⟨storeLinked, none, true, true, allLogsOk⟩

/-- Log events for instance 5, inserted with timestamps in order [3, 1, 2]. -/
def logsC4 : List ProvisionLogEvent :=
  [⟨5, 3, ⟨"e3", "d3"⟩, .neutral⟩, ⟨5, 1, ⟨"e1", "d1"⟩, .positive⟩,
    ⟨5, 2, ⟨"e2", "d2"⟩, .negative⟩]

/-- An instance with zero log events in `envC4`. -/
def instC4e : Instance := ⟨6, 1, ⟨11, "node-b"⟩, none⟩

def envC4 : Env :=
  ⟨⟨[sampleAgg], [instNoHost, instC4e], [], [sampleTemplate], logsC4⟩, none, true, true, allLogsOk⟩

def envC6 : Env := ⟨storeNoHost, none, true, true, noLogsOk⟩

def envC7 : Env := ⟨storeLinked, some rejectAll, true, true, allLogsOk⟩

def envC8 : Env := ⟨emptyStore, none, true, true, allLogsOk⟩

def envC9 : Env := ⟨⟨[sampleAgg], [], [], [], []⟩, none, true, true, allLogsOk⟩

def envC10 : Env := ⟨emptyStore, none, true, true, allLogsOk⟩

/-! ### Helper lemmas -/

/-- Replacing the row with `inst2.id` makes the lookup that previously
found `inst` (with the same id) find `inst2`. -/
theorem find?_map_update (l : List Instance) (i : Nat) (inst inst2 : Instance)
    (h : l.find? (fun x => x.id == i) = some inst) (hid : inst2.id = inst.id) :
    (l.map (fun old => if old.id == inst2.id then inst2 else old)).find?
      (fun x => x.id == i) = some inst2 := by
  have hpi : inst.id = i := by
    simpa using List.find?_some h
  induction l with
  | nil => simp at h
  | cons a t ih =>
      cases hpa : (a.id == i) with
      | true =>
          have hinst : a = inst := by
            simp only [List.find?_cons, hpa] at h
            exact Option.some.inj h
          have hcond : (a.id == inst2.id) = true := by
            simp [hinst, hid]
          have hpos : (inst2.id == i) = true := by
            simp [hid, hpi]
          rw [List.map_cons, if_pos hcond, List.find?_cons]
          simp only [hpos]
      | false =>
          have ht : t.find? (fun x => x.id == i) = some inst := by
            simpa only [List.find?_cons, hpa] using h
          have hne : a.id ≠ i := by simpa using hpa
          have hcond : ¬((a.id == inst2.id) = true) := by
            have hne2 : a.id ≠ inst2.id := fun hcontra => hne (by rw [hcontra, hid, hpi])
            simpa using hne2
          rw [List.map_cons, if_neg hcond, List.find?_cons]
          simp only [hpa]
          exact ih ht

/-- `Store.updateInstance` is visible to a subsequent `Instance.get`. -/
theorem get_updateInstance_self (s : Store) (i : Nat) (inst inst2 : Instance)
    (h : Instance.get s i = some inst) (hid : inst2.id = inst.id) :
    Instance.get (s.updateInstance inst2) i = some inst2 :=
  find?_map_update s.instances i inst inst2 h hid

/-- After a successful update and commit with the dispatcher initialized,
the store of `reimage_host` is the committed image update — independent of
the linked-host check and of whether the dispatcher accepts the action. -/
theorem reimage_host_store_committed (env : Env) (instance_id image_id : Nat)
    (inst0 : Instance) (d : Dispatcher)
    (hget : Instance.get env.store instance_id = some inst0)
    (hupd : env.updateOk = true) (hcom : env.commitOk = true)
    (hdisp : env.dispatch = some d) :
    (reimage_host env instance_id image_id).store =
      env.store.updateInstance
        { inst0 with config := { inst0.config with image := image_id } } := by
  cases hlink : inst0.linked_host with
  | none => simp [reimage_host, hget, hupd, hcom, hdisp, hlink]
  | some host_id =>
      cases hacc : d.accept (Action.Reimage host_id instance_id inst0.aggregate) <;>
        simp [reimage_host, hget, hupd, hcom, hdisp, hlink, hacc]

/-- Inserting an event is a permutation of consing it. -/
theorem insertByTime_perm (e : ProvisionLogEvent) (l : List ProvisionLogEvent) :
    List.Perm (insertByTime e l) (e :: l) := by
  induction l with
  | nil => simp [insertByTime]
  | cons x xs ih =>
      by_cases h : e.time ≤ x.time
      · simp [insertByTime, h]
      · have h2 : List.Perm (x :: insertByTime e xs) (x :: e :: xs) := ih.cons x
        have h3 : List.Perm (x :: e :: xs) (e :: x :: xs) := List.Perm.swap e x xs
        have h4 := h2.trans h3
        simpa [insertByTime, h] using h4

/-- Sorting is a permutation of the input. -/
theorem sort_by_time_perm (l : List ProvisionLogEvent) : List.Perm (sort_by_time l) l := by
  induction l with
  | nil => simp [sort_by_time]
  | cons e es ih =>
      exact (insertByTime_perm e (sort_by_time es)).trans (ih.cons e)

/-- Inserting into a time-sorted list keeps it time-sorted. -/
theorem insertByTime_pairwise (e : ProvisionLogEvent) (l : List ProvisionLogEvent)
    (h : l.Pairwise (fun a b => a.time ≤ b.time)) :
    (insertByTime e l).Pairwise (fun a b => a.time ≤ b.time) := by
  induction l with
  | nil => simp [insertByTime]
  | cons x xs ih =>
      rcases List.pairwise_cons.mp h with ⟨hx, hxs⟩
      by_cases hle : e.time ≤ x.time
      · rw [insertByTime, if_pos hle]
        refine List.Pairwise.cons ?_ h
        intro b hb
        rcases List.mem_cons.mp hb with hbx | hbxs
        · rw [hbx]; exact hle
        · exact le_trans hle (hx b hbxs)
      · rw [insertByTime, if_neg hle]
        refine List.Pairwise.cons ?_ (ih hxs)
        intro b hb
        have hb2 : b ∈ e :: xs := (insertByTime_perm e xs).mem_iff.mp hb
        rcases List.mem_cons.mp hb2 with hbe | hbxs
        · rw [hbe]; omega
        · exact hx b hbxs

/-- The sort produces a list sorted by `time` ascending. -/
theorem sort_by_time_pairwise (l : List ProvisionLogEvent) :
    (sort_by_time l).Pairwise (fun a b => a.time ≤ b.time) := by
  induction l with
  | nil => simp [sort_by_time]
  | cons e es ih => exact insertByTime_pairwise e _ ih

/-- The per-instance log records `instance_status` builds, as a function
of the store: the time-sorted events mapped to response records. -/
def mappedLogs (env : Env) (inst : Instance) : List InstanceStatusUpdate :=
  (sort_by_time (ProvisionLogEvent.all_for_instance env.store inst.id)).map (fun log =>
    { sentiment := log.sentiment
      status := log.prov_status.displayString
      status_info := { headline := log.prov_status.event, subline := log.prov_status.details }
      time := log.time })

/-- `instance_status` on an instance with no linked host: success, with
both host fields absent. -/
theorem instance_status_ok_none (env : Env) (inst : Instance)
    (hl : env.logsOk inst.id = true) (hv : inst.linked_host = none) :
    instance_status env inst =
      .ok { inst := inst.id, logs := mappedLogs env inst, assigned_host_info := none,
            host_alias := inst.config.hostname, assigned_host := none } := by
  simp [instance_status, hl, hv, mappedLogs]

/-- `instance_status` on an instance whose linked host resolves: success,
with `assigned_host` set but `assigned_host_info` still `none` (the
constructed `host_info` is discarded in the source). -/
theorem instance_status_ok_some (env : Env) (inst : Instance) (v : Nat) (host : Host)
    (hl : env.logsOk inst.id = true) (hv : inst.linked_host = some v)
    (hh : Host.get env.store v = some host) :
    instance_status env inst =
      .ok { inst := inst.id, logs := mappedLogs env inst, assigned_host_info := none,
            host_alias := inst.config.hostname, assigned_host := some host.server_name } := by
  simp [instance_status, hl, hv, hh, mappedLogs]

/-- The times of the built log records are the times of the sorted events. -/
theorem mappedLogs_times (env : Env) (inst : Instance) :
    (mappedLogs env inst).map (fun u => u.time) =
      (sort_by_time (ProvisionLogEvent.all_for_instance env.store inst.id)).map
        (fun log => log.time) := by
  simp [mappedLogs, List.map_map]

/-- A failing log fetch fails the per-instance status with the 500-class
store error. -/
theorem instance_status_error_of_logs (env : Env) (inst : Instance)
    (h : env.logsOk inst.id = false) :
    instance_status env inst = .error dbClientError := by
  simp [instance_status, h]

/-- A failing linked-host resolution fails the per-instance status with
the 500-class store error. -/
theorem instance_status_error_of_host (env : Env) (inst : Instance) (v : Nat)
    (hl : env.logsOk inst.id = true)
    (hv : inst.linked_host = some v) (hh : Host.get env.store v = none) :
    instance_status env inst = .error dbClientError := by
  simp [instance_status, hl, hv, hh]

/-- The only error `instance_status` produces is the 500-class store error. -/
theorem instance_status_error_eq (env : Env) (inst : Instance) (e : WebError)
    (h : instance_status env inst = .error e) : e = dbClientError := by
  cases hl : env.logsOk inst.id with
  | false =>
      rw [instance_status_error_of_logs env inst hl] at h
      injection h with h2
      exact h2.symm
  | true =>
      cases hv : inst.linked_host with
      | none => rw [instance_status_ok_none env inst hl hv] at h; cases h
      | some v =>
          cases hh : Host.get env.store v with
          | none =>
              rw [instance_status_error_of_host env inst v hl hv hh] at h
              injection h with h2
              exact h2.symm
          | some host => rw [instance_status_ok_some env inst v host hl hv hh] at h; cases h

/-- A failing instance anywhere in the loop fails the whole accumulation. -/
theorem collect_statuses_error_of_mem (env : Env) (l : List Instance) (inst : Instance)
    (hmem : inst ∈ l) (e : WebError)
    (hfail : instance_status env inst = .error e) :
    ∃ e2, collect_statuses env l = .error e2 := by
  induction l with
  | nil => cases hmem
  | cons a t ih =>
      cases hst : instance_status env a with
      | error e3 => exact ⟨e3, by simp [collect_statuses, hst]⟩
      | ok st =>
          rcases List.mem_cons.mp hmem with hEq | hm
          · rw [hEq, hst] at hfail
            cases hfail
          · obtain ⟨e2, h2⟩ := ih hm
            exact ⟨e2, by simp [collect_statuses, hst, h2]⟩

/-- Every error of the accumulation is the 500-class store error. -/
theorem collect_statuses_error_eq (env : Env) (l : List Instance) (e : WebError)
    (h : collect_statuses env l = .error e) : e = dbClientError := by
  induction l with
  | nil => simp [collect_statuses] at h
  | cons a t ih =>
      cases hst : instance_status env a with
      | error e2 =>
          simp only [collect_statuses, hst] at h
          injection h with h2
          exact h2 ▸ instance_status_error_eq env a e2 hst
      | ok st =>
          cases hc : collect_statuses env t with
          | error e2 =>
              simp only [collect_statuses, hst, hc] at h
              injection h with h2
              exact ih (h2 ▸ hc)
          | ok tail =>
              simp only [collect_statuses, hst, hc] at h
              exact Except.noConfusion h

/-- Every entry of a successful accumulation comes from a successful
`instance_status` of a member instance, keyed by that instance's id. -/
theorem collect_statuses_ok_mem (env : Env) (l : List Instance)
    (res : List (Nat × InstanceStatus)) (h : collect_statuses env l = Except.ok res)
    (p : Nat × InstanceStatus) (hp : p ∈ res) :
    ∃ inst, inst ∈ l ∧ instance_status env inst = Except.ok p.2 ∧ p.1 = inst.id := by
  induction l generalizing res with
  | nil =>
      simp only [collect_statuses] at h
      injection h with h2
      rw [← h2] at hp
      cases hp
  | cons a t ih =>
      cases hst : instance_status env a with
      | error e =>
          simp only [collect_statuses, hst] at h
          exact Except.noConfusion h
      | ok st =>
          cases hc : collect_statuses env t with
          | error e =>
              simp only [collect_statuses, hst, hc] at h
              exact Except.noConfusion h
          | ok tail =>
              simp only [collect_statuses, hst, hc] at h
              injection h with h2
              rw [← h2] at hp
              rcases List.mem_cons.mp hp with hph | hpt
              · refine ⟨a, List.mem_cons_self a t, ?_, ?_⟩
                · rw [hph]; exact hst
                · rw [hph]
              · obtain ⟨inst, hmem, hok, hid⟩ := ih tail hc hpt
                exact ⟨inst, List.mem_cons_of_mem a hmem, hok, hid⟩

/-- A successful `booking_status` carries exactly the accumulated
per-instance records of the looked-up aggregate's instances. -/
theorem booking_status_ok_instances (env : Env) (agg_id : Nat) (bs : BookingStatus)
    (h : booking_status env agg_id = Outcome.ok bs) :
    ∃ agg, Aggregate.get env.store agg_id = some agg ∧
      collect_statuses env (Aggregate.instances env.store agg) =
        Except.ok bs.instances := by
  cases hagg : Aggregate.get env.store agg_id with
  | none => simp [booking_status, hagg] at h
  | some agg =>
      refine ⟨agg, rfl, ?_⟩
      cases hc : collect_statuses env (Aggregate.instances env.store agg) with
      | error e => simp [booking_status, hagg, hc] at h
      | ok statuses =>
          cases ht : Template.get env.store agg.template with
          | none => simp [booking_status, hagg, hc, ht] at h
          | some tmpl =>
              cases hcm : env.commitOk with
              | false => simp [booking_status, hagg, hc, ht, hcm] at h
              | true =>
                  simp only [booking_status, hagg, hc, ht, hcm, if_true] at h
                  injection h with h2
                  rw [← h2]

/-- A successful `instance_status` returns the log records sorted by
timestamp ascending, a permutation of the instance's stored events. -/
theorem instance_status_ok_logs_sorted (env : Env) (inst : Instance) (st : InstanceStatus)
    (h : instance_status env inst = Except.ok st) :
    (st.logs.map (fun u => u.time)).Pairwise (· ≤ ·) ∧
    List.Perm (st.logs.map (fun u => u.time))
      ((ProvisionLogEvent.all_for_instance env.store inst.id).map (fun l => l.time)) := by
  have hlogs : st.logs = mappedLogs env inst := by
    cases hl : env.logsOk inst.id with
    | false => rw [instance_status_error_of_logs env inst hl] at h; cases h
    | true =>
        cases hv : inst.linked_host with
        | none =>
            rw [instance_status_ok_none env inst hl hv] at h
            injection h with h2
            rw [← h2]
        | some v =>
            cases hh : Host.get env.store v with
            | none => rw [instance_status_error_of_host env inst v hl hv hh] at h; cases h
            | some host =>
                rw [instance_status_ok_some env inst v host hl hv hh] at h
                injection h with h2
                rw [← h2]
  rw [hlogs, mappedLogs_times]
  constructor
  · exact List.pairwise_map.mpr (sort_by_time_pairwise _)
  · exact (sort_by_time_perm _).map (fun l => l.time)

/-! ### Claims -/

/-- C1: For every `reimage_host` call, the `Reimage` action is passed to
the dispatcher only when the instance row was read and the update and
commit both succeeded — at which point the new image id is already
persisted and visible to a subsequent read of the resulting store — and
the resulting store does not depend on the dispatcher's verdict, so a
failure of the dispatch step never rolls back the committed mutation. -/
theorem reimage_dispatch_after_commit (env : Env) (instance_id image_id : Nat) :
    ((reimage_host env instance_id image_id).sent ≠ [] →
      env.updateOk = true ∧ env.commitOk = true ∧
      ∃ inst, Instance.get env.store instance_id = some inst ∧
        Instance.get (reimage_host env instance_id image_id).store instance_id =
          some { inst with config := { inst.config with image := image_id } }) ∧
    ∀ d d2 : Dispatcher,
      (reimage_host { env with dispatch := some d } instance_id image_id).store =
        (reimage_host { env with dispatch := some d2 } instance_id image_id).store := by
  constructor
  · intro hsent
    cases hget : Instance.get env.store instance_id with
    | none => simp [reimage_host, hget] at hsent
    | some inst0 =>
        cases hupd : env.updateOk with
        | false => simp [reimage_host, hget, hupd] at hsent
        | true =>
            cases hcom : env.commitOk with
            | false => simp [reimage_host, hget, hupd, hcom] at hsent
            | true =>
                cases hdisp : env.dispatch with
                | none => simp [reimage_host, hget, hupd, hcom, hdisp] at hsent
                | some d =>
                    cases hlink : inst0.linked_host with
                    | none => simp [reimage_host, hget, hupd, hcom, hdisp, hlink] at hsent
                    | some host_id =>
                        refine ⟨rfl, rfl, inst0, rfl, ?_⟩
                        rw [reimage_host_store_committed env instance_id image_id inst0 d
                          hget hupd hcom hdisp]
                        exact get_updateInstance_self env.store instance_id inst0 _ hget rfl
  · intro d d2
    cases hget : Instance.get env.store instance_id with
    | none => simp [reimage_host, hget]
    | some inst0 =>
        cases hupd : env.updateOk with
        | false => simp [reimage_host, hget, hupd]
        | true =>
            cases hcom : env.commitOk with
            | false => simp [reimage_host, hget, hupd, hcom]
            | true =>
                have e1 := reimage_host_store_committed { env with dispatch := some d }
                  instance_id image_id inst0 d hget hupd hcom rfl
                have e2 := reimage_host_store_committed { env with dispatch := some d2 }
                  instance_id image_id inst0 d2 hget hupd hcom rfl
                rw [hupd, hcom] at e1 e2
                exact e1.trans e2.symm

/-- C1 witness: a concrete successful call sends the action, and the new
image id (20) is visible to a subsequent read of instance 5. -/
theorem reimage_dispatch_after_commit_witness :
    (reimage_host envC1 5 20).sent ≠ [] ∧
    (envC1.updateOk = true ∧ envC1.commitOk = true ∧
      ∃ inst, Instance.get envC1.store 5 = some inst ∧
        Instance.get (reimage_host envC1 5 20).store 5 =
          some { inst with config := { inst.config with image := 20 } }) :=
  ⟨by decide, (reimage_dispatch_after_commit envC1 5 20).1 (by decide)⟩

/-- C2 counterexample: on instance 5 — which exists and has no linked
host — `reimage_host` returns a plain 500 INTERNAL_SERVER_ERROR (not a
precondition-failed class) and the store mutation has happened: the
image field changed from 10 to 20. -/
theorem reimage_no_host_cex :
    (reimage_host envC2 5 20).response =
      Except.error (StatusCode.INTERNAL_SERVER_ERROR,
        "No linked host was found for instance.") ∧
    (Instance.get envC2.store 5).map (fun i => i.config.image) = some 10 ∧
    (Instance.get (reimage_host envC2 5 20).store 5).map (fun i => i.config.image) =
      some 20 := by
  decide

/-- C2 amended: on an instance that exists but has no linked host (with
the dispatcher initialized and the store healthy), `reimage_host` first
commits the image update and only then fails the linked-host check: it
returns a 500 "No linked host was found for instance." error, sends no
action, and the instance's `config.image` HAS been changed to the new
image id. -/
theorem reimage_no_host_commits_then_errors (env : Env) (i g : Nat) (inst0 : Instance)
    (d : Dispatcher)
    (hget : Instance.get env.store i = some inst0)
    (hlink : inst0.linked_host = none)
    (hdisp : env.dispatch = some d)
    (hupd : env.updateOk = true) (hcom : env.commitOk = true) :
    (reimage_host env i g).response =
      Except.error (StatusCode.INTERNAL_SERVER_ERROR,
        "No linked host was found for instance.") ∧
    (reimage_host env i g).sent = [] ∧
    Instance.get (reimage_host env i g).store i =
      some { inst0 with config := { inst0.config with image := g } } := by
  have hred : reimage_host env i g =
      ⟨Except.error (StatusCode.INTERNAL_SERVER_ERROR,
          "No linked host was found for instance."),
        env.store.updateInstance { inst0 with config := { inst0.config with image := g } },
        [], []⟩ := by
    simp [reimage_host, hget, hupd, hcom, hdisp, hlink]
  rw [hred]
  exact ⟨rfl, rfl, get_updateInstance_self env.store i inst0 _ hget rfl⟩

/-- C2 amended witness: the concrete no-linked-host call commits the new
image id 20 and then errors. -/
theorem reimage_no_host_commits_then_errors_witness :
    (reimage_host envC2 5 20).response =
      Except.error (StatusCode.INTERNAL_SERVER_ERROR,
        "No linked host was found for instance.") ∧
    (reimage_host envC2 5 20).sent = [] ∧
    Instance.get (reimage_host envC2 5 20).store 5 =
      some { instNoHost with config := { instNoHost.config with image := 20 } } :=
  reimage_no_host_commits_then_errors envC2 5 20 instNoHost acceptAll
    (by decide) rfl rfl rfl rfl

/-- C7 counterexample: with the dispatcher initialized but rejecting the
submission, `reimage_host` logs the failure yet returns `Ok(())` — the
`DispatchError` is silently converted into a success response. -/
theorem reimage_dispatch_error_swallowed_cex :
    (reimage_host envC7 5 20).response = Except.ok () ∧
    (reimage_host envC7 5 20).sent = [Action.Reimage 9 5 1] ∧
    (reimage_host envC7 5 20).logged = ["Failed to send deploy task with error"] := by
  decide

/-- C7 amended: when the dispatcher is initialized but rejects the
`Reimage` submission, the error is logged (`tracing::error!`) but NOT
surfaced: the handler returns the success response `Ok(())`. -/
theorem reimage_dispatch_error_logged_not_surfaced (env : Env) (i g : Nat)
    (inst0 : Instance) (d : Dispatcher) (hid : Nat)
    (hget : Instance.get env.store i = some inst0)
    (hdisp : env.dispatch = some d)
    (hlink : inst0.linked_host = some hid)
    (hupd : env.updateOk = true) (hcom : env.commitOk = true)
    (hrej : d.accept (Action.Reimage hid i inst0.aggregate) = false) :
    (reimage_host env i g).response = Except.ok () ∧
    (reimage_host env i g).sent = [Action.Reimage hid i inst0.aggregate] ∧
    (reimage_host env i g).logged = ["Failed to send deploy task with error"] := by
  simp [reimage_host, hget, hupd, hcom, hdisp, hlink, hrej]

/-- C7 amended witness: the concrete rejected submission is logged and the
response is still `Ok(())`. -/
theorem reimage_dispatch_error_logged_not_surfaced_witness :
    (reimage_host envC7 5 20).response = Except.ok () ∧
    (reimage_host envC7 5 20).sent = [Action.Reimage 9 5 instLinked.aggregate] ∧
    (reimage_host envC7 5 20).logged = ["Failed to send deploy task with error"] :=
  reimage_dispatch_error_logged_not_surfaced envC7 5 20 instLinked rejectAll 9
    (by decide) rfl rfl rfl rfl rfl

/-- C3: instance 5's linked host resolves — its name "host1" and
management address "host1-ipmi.example.com" are both in the store — yet
the returned record populates only the deprecated `assigned_host` name
field, while `assigned_host_info` (which the source's own doc comment
tells callers to reference instead) is `none`: the constructed
`host_info` value is discarded in the source. -/
theorem booking_status_host_info_dropped :
    booking_status envC3 1 =
      Outcome.ok
        { instances :=
            [(5, { inst := 5, logs := [], assigned_host_info := none,
                   host_alias := "node-a", assigned_host := some "host1" })],
          config := ⟨0⟩, template := ⟨7⟩ } ∧
    Host.get envC3.store 9 = some ⟨9, "host1", "host1-ipmi.example.com"⟩ ∧
    instLinked.linked_host = some 9 := by
  decide

/-- C4: in every successful `booking_status` view, every per-instance log
sequence is sorted by event timestamp ascending and is a permutation of
that instance's stored events, regardless of insertion order; concretely,
for the store whose events for instance 5 were inserted with timestamps
[3,1,2], the view maps instance 5 to the sequence ordered [1,2,3] and the
zero-event instance 6 to the empty sequence, with no error. -/
theorem status_logs_sorted :
    (∀ env agg_id bs, booking_status env agg_id = Outcome.ok bs →
        ∀ p ∈ bs.instances,
          (p.2.logs.map (fun u => u.time)).Pairwise (· ≤ ·) ∧
          List.Perm (p.2.logs.map (fun u => u.time))
            ((ProvisionLogEvent.all_for_instance env.store p.1).map (fun l => l.time))) ∧
    (ProvisionLogEvent.all_for_instance envC4.store 5).map (fun l => l.time) = [3, 1, 2] ∧
    (match booking_status envC4 1 with
      | Outcome.ok bs => bs.instances.map (fun p => (p.1, p.2.logs.map (fun u => u.time)))
      | _ => []) = [(5, [1, 2, 3]), (6, [])] := by
  refine ⟨?_, by decide, by decide⟩
  intro env agg_id bs h p hp
  obtain ⟨agg, _, hc⟩ := booking_status_ok_instances env agg_id bs h
  obtain ⟨inst, _, hok, hid⟩ := collect_statuses_ok_mem env _ _ hc p hp
  rw [hid]
  exact instance_status_ok_logs_sorted env inst p.2 hok

/-- The concrete `booking_status` view of `envC4`. -/
def bsC4 : BookingStatus :=
  match booking_status envC4 1 with
  | Outcome.ok bs => bs
  | _ => ⟨[], ⟨0⟩, ⟨0⟩⟩

/-- The record `bsC4` holds for instance 5. -/
def st5C4 : InstanceStatus :=
  (bsC4.instances.lookup 5).getD ⟨0, [], none, "", none⟩

/-- C4 witness: the general part applied to the concrete view whose
events for instance 5 were inserted with timestamps [3,1,2]. -/
theorem status_logs_sorted_witness :
    (st5C4.logs.map (fun u => u.time)).Pairwise (· ≤ ·) ∧
    List.Perm (st5C4.logs.map (fun u => u.time))
      ((ProvisionLogEvent.all_for_instance envC4.store 5).map (fun l => l.time)) :=
  status_logs_sorted.1 envC4 1 bsC4 (by decide) (5, st5C4) (by decide)

/-- C5: `end_booking` always returns a structured `{success, details}`
payload — its signature has no error channel, so the embedding is a total
function — and on failure, in particular on a non-existent aggregate id,
`success` is `false` and `details` is a non-empty string. -/
theorem end_booking_structured (s : Store) (agg_id : Nat) :
    ((end_booking s agg_id).1.success = false → (end_booking s agg_id).1.details ≠ "") ∧
    (Aggregate.get s agg_id = none →
      (end_booking s agg_id).1.success = false ∧
      (end_booking s agg_id).1.details ≠ "") := by
  cases hagg : Aggregate.get s agg_id with
  | none =>
      refine ⟨fun _ => ?_, fun _ => ⟨?_, ?_⟩⟩ <;>
        simp [end_booking, booking.end_booking, hagg]
  | some a =>
      refine ⟨fun hsucc => ?_, fun habs => ?_⟩
      · simp [end_booking, booking.end_booking, hagg] at hsucc
      · simp [hagg] at habs

/-- C5 witness: ending a booking for an id absent from an empty store
yields `success = false` with non-empty details. -/
theorem end_booking_structured_witness :
    (end_booking emptyStore 1).1.success = false ∧
    (end_booking emptyStore 1).1.details ≠ "" :=
  (end_booking_structured emptyStore 1).2 rfl

/-- C6: if the aggregate exists but resolving any single owned instance's
log events or linked host fails, the whole `booking_status` request fails
with a structured error — no partial view containing the other instances
is returned. -/
theorem booking_status_all_or_nothing (env : Env) (agg_id : Nat) (agg : Aggregate)
    (inst : Instance)
    (hagg : Aggregate.get env.store agg_id = some agg)
    (hmem : inst ∈ Aggregate.instances env.store agg)
    (hfail : env.logsOk inst.id = false ∨
      ∃ v, inst.linked_host = some v ∧ Host.get env.store v = none) :
    (∃ e, booking_status env agg_id = Outcome.err e) ∧
    ∀ bs, booking_status env agg_id ≠ Outcome.ok bs := by
  have hinst_err : instance_status env inst = Except.error dbClientError := by
    rcases hfail with hl | ⟨v, hv, hh⟩
    · exact instance_status_error_of_logs env inst hl
    · cases hl2 : env.logsOk inst.id with
      | false => exact instance_status_error_of_logs env inst hl2
      | true => exact instance_status_error_of_host env inst v hl2 hv hh
  obtain ⟨e2, hc⟩ :=
    collect_statuses_error_of_mem env _ inst hmem dbClientError hinst_err
  have hres : booking_status env agg_id = Outcome.err e2 := by
    simp [booking_status, hagg, hc]
  exact ⟨⟨e2, hres⟩, fun bs hbs => by rw [hres] at hbs; cases hbs⟩

/-- C6 witness: with the log fetch failing for instance 5, the whole
status request for aggregate 1 errors and returns no view. -/
theorem booking_status_all_or_nothing_witness :
    (∃ e, booking_status envC6 1 = Outcome.err e) ∧
    ∀ bs, booking_status envC6 1 ≠ Outcome.ok bs :=
  booking_status_all_or_nothing envC6 1 sampleAgg instNoHost (by decide) (by decide)
    (Or.inl rfl)

/-- C8: before the dispatcher handle is initialized, both
`notify_aggregate_expiring` and `request_booking_extension` return the
500-class "Unable to get dispatcher" error (the spec's
`DispatchUnavailable`, which it maps to the 500 class) and have no other
side effect: the store is untouched and no action is submitted. -/
theorem notify_before_init_no_side_effect (env : Env) (agg_id : Nat) (ds : String)
    (req : ExtensionRequest) (h : env.dispatch = none) :
    ((notify_aggregate_expiring env agg_id ds).response =
        Except.error (StatusCode.INTERNAL_SERVER_ERROR, "Unable to get dispatcher") ∧
      (notify_aggregate_expiring env agg_id ds).store = env.store ∧
      (notify_aggregate_expiring env agg_id ds).sent = []) ∧
    ((request_booking_extension env agg_id req).response =
        Except.error (StatusCode.INTERNAL_SERVER_ERROR, "Unable to get dispatcher") ∧
      (request_booking_extension env agg_id req).store = env.store ∧
      (request_booking_extension env agg_id req).sent = []) := by
  simp [notify_aggregate_expiring, request_booking_extension, h]

/-- C8 witness: concrete pre-initialization calls of both handlers. -/
theorem notify_before_init_no_side_effect_witness :
    ((notify_aggregate_expiring envC8 1 "2026-01-01").response =
        Except.error (StatusCode.INTERNAL_SERVER_ERROR, "Unable to get dispatcher") ∧
      (notify_aggregate_expiring envC8 1 "2026-01-01").store = envC8.store ∧
      (notify_aggregate_expiring envC8 1 "2026-01-01").sent = []) ∧
    ((request_booking_extension envC8 1 ⟨"2026-01-01", "more time"⟩).response =
        Except.error (StatusCode.INTERNAL_SERVER_ERROR, "Unable to get dispatcher") ∧
      (request_booking_extension envC8 1 ⟨"2026-01-01", "more time"⟩).store = envC8.store ∧
      (request_booking_extension envC8 1 ⟨"2026-01-01", "more time"⟩).sent = []) :=
  notify_before_init_no_side_effect envC8 1 "2026-01-01" ⟨"2026-01-01", "more time"⟩ rfl

/-- C9 counterexample: aggregate 1 exists but its template row (id 7) does
not resolve; `booking_status` panics via
`.expect("Expected to find template")` instead of returning a structured
error from the bounded taxonomy. -/
theorem booking_status_template_panics_cex :
    booking_status envC9 1 = Outcome.panic "Expected to find template" := by
  decide

/-- C9 amended: every outcome of `booking_status` is success, a structured
500-class error, or — alone on the template-resolution path — a panic,
which is not a structured error response. -/
theorem booking_status_outcome_shape (env : Env) (agg_id : Nat) :
    (∃ bs, booking_status env agg_id = Outcome.ok bs) ∨
    (∃ msg, booking_status env agg_id =
        Outcome.err (StatusCode.INTERNAL_SERVER_ERROR, msg)) ∨
    booking_status env agg_id = Outcome.panic "Expected to find template" := by
  cases hagg : Aggregate.get env.store agg_id with
  | none =>
      exact Or.inr (Or.inl ⟨"failed to look up aggregate by given ID", by
        simp [booking_status, hagg]⟩)
  | some agg =>
      cases hc : collect_statuses env (Aggregate.instances env.store agg) with
      | error e =>
          have he := collect_statuses_error_eq env _ e hc
          exact Or.inr (Or.inl ⟨"db client error", by
            simp [booking_status, hagg, hc, he, dbClientError]⟩)
      | ok statuses =>
          cases ht : Template.get env.store agg.template with
          | none => exact Or.inr (Or.inr (by simp [booking_status, hagg, hc, ht]))
          | some tmpl =>
              cases hcm : env.commitOk with
              | true =>
                  exact Or.inl
                    ⟨{ instances := statuses, config := agg.configuration, template := tmpl },
                      by simp [booking_status, hagg, hc, ht, hcm]⟩
              | false =>
                  exact Or.inr (Or.inl ⟨"db client error", by
                    simp [booking_status, hagg, hc, ht, hcm, dbClientError]⟩)

/-- C10 counterexample: on an empty store, a status request for the
absent aggregate 1 and a reimage request for the absent instance 5 both
return a 500 INTERNAL_SERVER_ERROR — not a 404-class status. -/
theorem absent_entity_500_cex :
    booking_status envC10 1 =
      Outcome.err (StatusCode.INTERNAL_SERVER_ERROR,
        "failed to look up aggregate by given ID") ∧
    (reimage_host envC10 5 20).response =
      Except.error (StatusCode.INTERNAL_SERVER_ERROR,
        "Error accessing image from database.") ∧
    is404Class StatusCode.INTERNAL_SERVER_ERROR = false := by
  decide

/-- C10 amended: a request referencing an absent entity fails with the
handler's generic 500-class INTERNAL_SERVER_ERROR structured error (the
absent-row case is collapsed into the store-error path), not with a
404-class status. -/
theorem absent_entity_maps_to_500 (env : Env) (agg_id i g : Nat)
    (h1 : Aggregate.get env.store agg_id = none)
    (h2 : Instance.get env.store i = none) :
    booking_status env agg_id =
      Outcome.err (StatusCode.INTERNAL_SERVER_ERROR,
        "failed to look up aggregate by given ID") ∧
    (reimage_host env i g).response =
      Except.error (StatusCode.INTERNAL_SERVER_ERROR,
        "Error accessing image from database.") ∧
    is404Class StatusCode.INTERNAL_SERVER_ERROR = false :=
  ⟨by simp [booking_status, h1], by simp [reimage_host, h2], by decide⟩

/-- C10 amended witness: the concrete absent-entity calls on the empty
store. -/
theorem absent_entity_maps_to_500_witness :
    booking_status envC10 1 =
      Outcome.err (StatusCode.INTERNAL_SERVER_ERROR,
        "failed to look up aggregate by given ID") ∧
    (reimage_host envC10 5 20).response =
      Except.error (StatusCode.INTERNAL_SERVER_ERROR,
        "Error accessing image from database.") ∧
    is404Class StatusCode.INTERNAL_SERVER_ERROR = false :=
  absent_entity_maps_to_500 envC10 1 5 20 rfl rfl

end Laas
